import Mathlib

/-!
Shallow embedding of `ri_is_up_bot.py`, a Discord website-monitor bot.
The probe/notify cycle (`check_website`), the notifier (`report_status`)
and the startup configuration (`CONFIG`) are translated into pure Lean
functions.  External effects (the HTTP response, Discord channel/user
resolution and message sends) are parameters: each cycle receives the
outcome the outside world would produce, and the functions return the
resulting monitor state together with the observable actions (sends,
log lines) and any exception that escapes.
-/

namespace RiIsUpBot

/-- The process environment, as read by `os.getenv`: a partial map from
variable names to values. -/
def Env : Type := String → Option String

/-- `os.getenv(key, default)`: the variable's value, or `default` when the
variable is absent. -/
def getenvD (env : Env) (key dflt : String) : String :=
  (env key).getD dflt

/-- Drop leading and trailing whitespace from a character list (the
stripping Python's `int` applies to its string argument). -/
def stripChars (cs : List Char) : List Char :=
  ((cs.dropWhile Char.isWhitespace).reverse.dropWhile Char.isWhitespace).reverse

/-- A nonempty all-decimal-digit character list, as a number; `none`
otherwise. -/
def parseDigits (cs : List Char) : Option Nat :=
  if cs ≠ [] ∧ cs.all Char.isDigit then
    some (cs.foldl (fun a c => a * 10 + (c.toNat - 48)) 0)
  else none

/-- Python's built-in `int()` applied to a string: strip whitespace, an
optional sign, then decimal digits; any other shape raises `ValueError`,
modelled as `none`.  (Python additionally allows `_` separators between
digits; no string this program passes to `int()` uses them.) -/
def pyInt (s : String) : Option Int :=
  match stripChars s.toList with
  | '-' :: cs => (parseDigits cs).map (fun n => -(n : Int))
  | '+' :: cs => (parseDigits cs).map (fun n => (n : Int))
  | cs => (parseDigits cs).map (fun n => (n : Int))

/-- The `CONFIG` dictionary built at startup (lines 18-40 of the source). -/
structure Config where
  check_url : String
  status_channel_id : Int
  user_id : Int
  check_interval : Nat
  website_name : String
  website_home_url : String
  debug : Bool
deriving DecidableEq

/-- Building `CONFIG` from the environment.  The dict literal evaluates
top to bottom: `int(os.getenv("STATUS_CHANNEL_ID", "YOUR_PRIVATE_CHANNEL_ID"))`
first, then `int(os.getenv("USER_ID", "YOUR_DISCORD_USER_ID"))`; a failing
`int()` raises at construction, modelled as `none`.  Every other field is a
literal in the source. -/
def buildConfig (env : Env) : Option Config :=
  match pyInt (getenvD env "STATUS_CHANNEL_ID" "YOUR_PRIVATE_CHANNEL_ID") with
  | none => none
  | some cid =>
    match pyInt (getenvD env "USER_ID" "YOUR_DISCORD_USER_ID") with
    | none => none
    | some uid =>
      some { check_url := "https://resilientinterface.com/resources/images/info-hub.png"
             status_channel_id := cid
             user_id := uid
             check_interval := 3600
             website_name := "ResilientInterface"
             website_home_url := "https://resilientinterface.com"
             debug := true }

/-- The credential passed to `bot.run` (line 164): `os.getenv("DISCORD_BOT_TOKEN")`. -/
def botToken (env : Env) : Option String :=
  env "DISCORD_BOT_TOKEN"

/-- The module-level constant `MAX_CONSECUTIVE_FAILURES = 3` (line 45). -/
def MAX_CONSECUTIVE_FAILURES : Nat := 3

/-- Python's `str.startswith(p)` (= Lean's `String.startsWith`), computed
on the character lists so that it reduces in the kernel. -/
def startsWithStr (s p : String) : Bool := p.toList.isPrefixOf s.toList

/-- The `status` dict one probe cycle produces (lines 69-74). -/
structure StatusRecord where
  online : Bool
  response_time : Nat
  message : String
  timestamp : Nat
deriving DecidableEq

/-- The process-wide mutable monitor state: `last_status` and
`consecutive_failures` (lines 43-44). -/
structure MonitorState where
  last_status : Option StatusRecord
  consecutive_failures : Nat
deriving DecidableEq

/-- What the HTTP GET against `check_url` comes back with: a response
(status code, declared content type, elapsed milliseconds) or an exception
raised during the request (message, elapsed milliseconds). -/
inductive ProbeResult where
  | response (status : Nat) (contentType : String) (elapsedMs : Nat)
  | failure (error : String) (elapsedMs : Nat)
deriving DecidableEq

/-- An exception raised by a Discord API call.  `forbidden` is
`discord.Forbidden`; `other` is any other `Exception`. -/
inductive Exc where
  | forbidden
  | other (msg : String)
deriving DecidableEq

/-- The outside-world outcomes one `report_status` call would meet:
`bot.get_channel` (returns a channel or `None`, never raises),
`bot.fetch_user` (returns a user — possibly falsy — or raises),
`status_channel.send` and `user.send` (each succeeds or raises).
The user is represented by its `name`, the only attribute read. -/
structure NotifyEnv where
  get_channel : Option Unit
  fetch_user : Except Exc (Option String)
  channel_send : Except Exc Unit
  user_send : Except Exc Unit

/-- An observable action of `report_status`: a `print` log line, the send
to the status channel, or the DM send.  (The embed payload built at
lines 128-139 carries no control flow and is abstracted away.) -/
inductive Action where
  | log (msg : String)
  | channelSend
  | dmSend
deriving DecidableEq

/-- The log line of the DM `except` arms (lines 147-150): the `Forbidden`
arm names the user, the generic arm names the error. -/
def dmErrorLog (userName : String) : Exc → String
  | .forbidden => "Cannot send DM to user " ++ userName ++ ". They may have DMs disabled."
  | .other m => "Error sending DM to user: " ++ m

/-- `report_status(status)` (lines 114-150): resolve the channel, fetch the
user (line 117, may raise), bail out with a log if either is falsy, send to
the channel (line 142, may raise), then try the DM and swallow any
exception it raises.  Returns the actions performed, or the exception that
escaped. -/
def report_status (env : NotifyEnv) (cfg : Config) : Except Exc (List Action) :=
  let status_channel := env.get_channel
  match env.fetch_user with
  | .error e => .error e
  | .ok user =>
    if status_channel.isNone then
      .ok [.log ("Cannot find channel with ID " ++ toString cfg.status_channel_id)]
    else if user.isNone then
      .ok [.log ("Cannot find user with ID " ++ toString cfg.user_id)]
    else
      match env.channel_send with
      | .error e => .error e
      | .ok _ =>
        match env.user_send with
        | .ok _ => .ok [.channelSend, .dmSend]
        | .error e => .ok [.channelSend, .log (dmErrorLog (user.getD "") e)]

/-- The `status` record the probe section of `check_website` builds
(lines 68-98): online exactly when the response has status 200 and a
content type starting with `image/`; otherwise offline with the
corresponding message. -/
def evalStatus (cfg : Config) (pr : ProbeResult) (now : Nat) : StatusRecord :=
  match pr with
  | .response s ct ms =>
    if s == 200 && startsWithStr ct "image/" then
      { online := true
        response_time := ms
        message := cfg.website_name ++ " is online. Response time: " ++ toString ms ++ "ms"
        timestamp := now }
    else
      { online := false
        response_time := ms
        message := cfg.website_name ++ " returned status " ++ toString s ++
          " but invalid content type: " ++ ct
        timestamp := now }
  | .failure e ms =>
      { online := false
        response_time := ms
        message := cfg.website_name ++ " is down. Error: " ++ e
        timestamp := now }

/-- The update of `consecutive_failures` inside the same branches
(lines 88, 92, 98): reset to 0 in the success branch, incremented by 1 in
the invalid-content branch and in the `except` branch. -/
def newFailures (cf : Nat) (pr : ProbeResult) : Nat :=
  match pr with
  | .response s ct _ => if s == 200 && startsWithStr ct "image/" then 0 else cf + 1
  | .failure _ _ => cf + 1

/-- The reporting condition at lines 107-109:
`last_status is None or last_status["online"] != status["online"] or
(consecutive_failures >= MAX_CONSECUTIVE_FAILURES and not status["online"])`,
evaluated with the already-updated counter. -/
def should_report (prev : Option StatusRecord) (status : StatusRecord) (cf : Nat) : Bool :=
  match prev with
  | none => true
  | some p =>
    (p.online != status.online) ||
      (decide (MAX_CONSECUTIVE_FAILURES ≤ cf) && !status.online)

/-- Everything one `check_website` cycle leaves behind: the global state
after the cycle body, whether `report_status` was invoked, the actions it
performed, and the exception (if any) that escaped the cycle. -/
structure CycleResult where
  state : MonitorState
  fired : Bool
  actions : List Action
  raised : Option Exc
deriving DecidableEq

/-- One `check_website` cycle (lines 64-112): build the status record and
update the counter, test the reporting condition, await `report_status`
when it holds, then set `last_status = status`.  `report_status` is not
wrapped in any `try`, so an exception it raises escapes before line 112:
the counter keeps its updated value (set at lines 88/92/98) while
`last_status` keeps its previous value. -/
def check_website (cfg : Config) (env : NotifyEnv) (st : MonitorState)
    (pr : ProbeResult) (now : Nat) : CycleResult :=
  let status := evalStatus cfg pr now
  let cf := newFailures st.consecutive_failures pr
  if should_report st.last_status status cf then
    match report_status env cfg with
    | .error e =>
      { state := ⟨st.last_status, cf⟩, fired := true, actions := [], raised := some e }
    | .ok acts =>
      { state := ⟨some status, cf⟩, fired := true, actions := acts, raised := none }
  else
    { state := ⟨some status, cf⟩, fired := false, actions := [], raised := none }

/-- Iterate `check_website` over a list of probe outcomes (the periodic
task firing once per interval), threading the global state; returns the
final state and, per cycle, whether `report_status` fired. -/
def runCycles (cfg : Config) (env : NotifyEnv) (st : MonitorState) :
    List ProbeResult → MonitorState × List Bool
  | [] => (st, [])
  | pr :: prs =>
    let r := check_website cfg env st pr 0
    let rest := runCycles cfg env r.state prs
    (rest.1, r.fired :: rest.2)

/-- An environment in which the two identifier variables are set. -/
def envEx : Env := fun k =>
  if k = "STATUS_CHANNEL_ID" then some "123"
  else if k = "USER_ID" then some "456"
  else none

/-- The configuration the program builds under `envEx`. -/
def cfgEx : Config :=
  { check_url := "https://resilientinterface.com/resources/images/info-hub.png"
    status_channel_id := 123
    user_id := 456
    check_interval := 3600
    website_name := "ResilientInterface"
    website_home_url := "https://resilientinterface.com"
    debug := true }

/-- A notify environment where every Discord call succeeds. -/
def okEnv : NotifyEnv :=
  { get_channel := some ()
    fetch_user := .ok (some "monitored-user")
    channel_send := .ok ()
    user_send := .ok () }

/-- A probe outcome classified online: HTTP 200 with an image content type. -/
def prOnline : ProbeResult := .response 200 "image/png" 42

/-- A probe outcome classified offline: the request raised. -/
def prOffline : ProbeResult := .failure "Cannot connect to host" 31

/-- A notify environment whose channel send raises (an HTTP error from the
Discord API, say). -/
def badSendEnv : NotifyEnv :=
  { okEnv with channel_send := .error (.other "500 Internal Server Error") }

/-- A notify environment where the user fetch comes back falsy. -/
def userNoneEnv : NotifyEnv :=
  { okEnv with fetch_user := .ok none }

/-- A notify environment where the DM send raises `discord.Forbidden`. -/
def dmFailEnv : NotifyEnv :=
  { okEnv with user_send := .error .forbidden }

/-- An environment that, besides the two identifiers, sets variables the
program never reads. -/
def envExtra : Env := fun k =>
  if k = "STATUS_CHANNEL_ID" then some "123"
  else if k = "USER_ID" then some "456"
  else if k = "CHECK_INTERVAL" then some "5"
  else if k = "DEBUG" then some "false"
  else if k = "WEBSITE_NAME" then some "SomeOtherSite"
  else none

/-- The counter update agrees with the online flag of the record built in
the same branch: reset on online, increment by one on offline. -/
theorem newFailures_eq (cfg : Config) (cf : Nat) (pr : ProbeResult) (now : Nat) :
    newFailures cf pr = if (evalStatus cfg pr now).online = true then 0 else cf + 1 := by
  cases pr with
  | response s ct ms =>
    by_cases h : (s == 200 && startsWithStr ct "image/") = true
    · simp [newFailures, evalStatus, h]
    · simp [newFailures, evalStatus, h]
  | failure e ms => simp [newFailures, evalStatus]

/-- The online flag of the record the probe section builds, as a function
of the raw response. -/
theorem evalStatus_online (cfg : Config) (pr : ProbeResult) (now : Nat) :
    (evalStatus cfg pr now).online =
      (match pr with
       | .response s ct _ => s == 200 && startsWithStr ct "image/"
       | .failure _ _ => false) := by
  cases pr with
  | response s ct ms =>
    by_cases h : (s == 200 && startsWithStr ct "image/") = true
    · simp [evalStatus, h]
    · simp only [Bool.not_eq_true] at h
      simp [evalStatus, h]
  | failure e ms => simp [evalStatus]

/-- Whatever the cycle's branches do, the resulting global counter is the
value the probe section wrote. -/
theorem check_website_cf (cfg : Config) (env : NotifyEnv) (st : MonitorState)
    (pr : ProbeResult) (now : Nat) :
    (check_website cfg env st pr now).state.consecutive_failures =
      newFailures st.consecutive_failures pr := by
  simp only [check_website]
  split
  · split <;> rfl
  · rfl

/-- `report_status` is invoked exactly when the line 107-109 condition
holds, computed on the updated counter. -/
theorem check_website_fired (cfg : Config) (env : NotifyEnv) (st : MonitorState)
    (pr : ProbeResult) (now : Nat) :
    (check_website cfg env st pr now).fired =
      should_report st.last_status (evalStatus cfg pr now)
        (newFailures st.consecutive_failures pr) := by
  simp only [check_website]
  split
  · rename_i h
    split <;> exact h.symm
  · rename_i h
    simp only [Bool.not_eq_true] at h
    exact h.symm

/-- Running a batch of all-offline cycles adds the batch length to the
counter. -/
theorem runCycles_cf_add (cfg : Config) (env : NotifyEnv) :
    ∀ (prs : List ProbeResult) (st : MonitorState),
      (∀ pr ∈ prs, (evalStatus cfg pr 0).online = false) →
      (runCycles cfg env st prs).1.consecutive_failures =
        st.consecutive_failures + prs.length := by
  intro prs
  induction prs with
  | nil => intro st _; simp [runCycles]
  | cons pr prs ih =>
    intro st h
    simp only [runCycles]
    rw [ih _ (fun q hq => h q (List.mem_cons_of_mem _ hq))]
    rw [check_website_cf, newFailures_eq cfg _ _ 0, h pr (List.mem_cons_self _ _),
      if_neg (by decide), List.length_cons]
    omega

/-- Cycle runs compose over list append (on the final state). -/
theorem runCycles_append_state (cfg : Config) (env : NotifyEnv) :
    ∀ (xs ys : List ProbeResult) (st : MonitorState),
      (runCycles cfg env st (xs ++ ys)).1 =
        (runCycles cfg env (runCycles cfg env st xs).1 ys).1 := by
  intro xs
  induction xs with
  | nil => intro ys st; simp [runCycles]
  | cons x xs ih =>
    intro ys st
    simp only [List.cons_append, runCycles]
    exact ih ys _

/-- Claim C1: the decision rule fires (`report_status` is invoked) on a
cycle exactly when the previous record is none, or its online flag differs
from the current one, or the current record is offline and the updated
consecutive-failure counter has reached `MAX_CONSECUTIVE_FAILURES`; in
every other case the cycle does not notify. -/
theorem decision_rule_characterization (cfg : Config) (env : NotifyEnv)
    (st : MonitorState) (pr : ProbeResult) (now : Nat) :
    (check_website cfg env st pr now).fired = true ↔
      (st.last_status = none ∨
       (∃ p, st.last_status = some p ∧ p.online ≠ (evalStatus cfg pr now).online) ∨
       ((evalStatus cfg pr now).online = false ∧
        MAX_CONSECUTIVE_FAILURES ≤
          (check_website cfg env st pr now).state.consecutive_failures)) := by
  rw [check_website_fired, check_website_cf]
  cases h : st.last_status with
  | none => simp [should_report]
  | some p =>
    simp only [should_report, h, Option.some.injEq, Bool.or_eq_true, bne_iff_ne,
      Bool.and_eq_true, decide_eq_true_iff, Bool.not_eq_true']
    constructor
    · rintro (hne | ⟨hcf, hoff⟩)
      · exact Or.inr (Or.inl ⟨p, rfl, hne⟩)
      · exact Or.inr (Or.inr ⟨hoff, hcf⟩)
    · rintro (hnone | ⟨q, rfl, hne⟩ | ⟨hoff, hcf⟩)
      · exact absurd hnone (by simp)
      · exact Or.inl hne
      · exact Or.inr ⟨hcf, hoff⟩

/-- Claim C2: a probe observed online resets `consecutive_failures` to 0
and any probe observed offline increments it by exactly 1; hence from a
zero counter, N consecutive offline observations leave the counter at N,
and the observation immediately following any prefix, if online, resets it
to 0. -/
theorem consecutive_failures_invariant :
    (∀ (cfg : Config) (env : NotifyEnv) (st : MonitorState) (pr : ProbeResult) (now : Nat),
       (check_website cfg env st pr now).state.consecutive_failures =
         if (evalStatus cfg pr now).online = true then 0
         else st.consecutive_failures + 1) ∧
    (∀ (cfg : Config) (env : NotifyEnv) (st : MonitorState) (prs : List ProbeResult),
       st.consecutive_failures = 0 →
       (∀ pr ∈ prs, (evalStatus cfg pr 0).online = false) →
       (runCycles cfg env st prs).1.consecutive_failures = prs.length) ∧
    (∀ (cfg : Config) (env : NotifyEnv) (st : MonitorState) (prs : List ProbeResult)
       (pr : ProbeResult),
       (evalStatus cfg pr 0).online = true →
       (runCycles cfg env st (prs ++ [pr])).1.consecutive_failures = 0) := by
  refine ⟨?_, ?_, ?_⟩
  · intro cfg env st pr now
    rw [check_website_cf, newFailures_eq cfg _ _ now]
  · intro cfg env st prs h0 hoff
    rw [runCycles_cf_add cfg env prs st hoff, h0, Nat.zero_add]
  · intro cfg env st prs pr hon
    rw [runCycles_append_state]
    simp [runCycles, check_website_cf, newFailures_eq cfg _ _ 0, hon]

/-- Witness for claim C2 at concrete inputs: two offline cycles from a
fresh state leave the counter at 2, and an online cycle after an offline
one resets it to 0. -/
theorem consecutive_failures_invariant_witness :
    (runCycles cfgEx okEnv ⟨none, 0⟩ [prOffline, prOffline]).1.consecutive_failures = 2 ∧
    (runCycles cfgEx okEnv ⟨none, 5⟩ [prOffline, prOnline]).1.consecutive_failures = 0 := by
  constructor
  · exact consecutive_failures_invariant.2.1 cfgEx okEnv ⟨none, 0⟩ [prOffline, prOffline]
      rfl (by decide)
  · exact consecutive_failures_invariant.2.2 cfgEx okEnv ⟨none, 5⟩ [prOffline] prOnline
      (by decide)

/-- Claim C3: with the threshold at 3 and outcomes
[online, offline, offline, offline, offline] from the initial state,
notifications fire on cycles 1, 2, 4 and 5 and not on cycle 3. -/
theorem scenario_threshold_three :
    (runCycles cfgEx okEnv ⟨none, 0⟩
        [prOnline, prOffline, prOffline, prOffline, prOffline]).2 =
      [true, true, false, true, true] := by
  decide

/-- Claim C4, counterexample: on a first cycle whose channel send raises,
`report_status` was invoked and raised, and `last_status` is NOT replaced
by the cycle's record — the update at line 112 is skipped because nothing
catches the exception, refuting "replaced unconditionally ... whatever the
outcome of the notification attempt". -/
theorem notify_exception_skips_last_status_update :
    (check_website cfgEx badSendEnv ⟨none, 0⟩ prOnline 0).fired = true ∧
    (check_website cfgEx badSendEnv ⟨none, 0⟩ prOnline 0).raised =
      some (Exc.other "500 Internal Server Error") ∧
    (check_website cfgEx badSendEnv ⟨none, 0⟩ prOnline 0).state.last_status = none := by
  decide

/-- Claim C4, amended: at the end of every cycle from which no exception
escapes, `last_status` is replaced by the record produced by that cycle's
probe, whether or not a notification fired; a cycle whose notify step
raises skips the replacement. -/
theorem last_status_replaced_when_no_exception (cfg : Config) (env : NotifyEnv)
    (st : MonitorState) (pr : ProbeResult) (now : Nat) :
    (check_website cfg env st pr now).raised = none →
    (check_website cfg env st pr now).state.last_status =
      some (evalStatus cfg pr now) := by
  simp only [check_website]
  split
  · split
    · exact fun h => absurd h (by simp)
    · exact fun _ => rfl
  · exact fun _ => rfl

/-- Witness for claim C4 at a concrete input: a first cycle with a fully
successful notification replaces `last_status` with the probe's record. -/
theorem last_status_replaced_when_no_exception_witness :
    (check_website cfgEx okEnv ⟨none, 0⟩ prOnline 0).state.last_status =
      some (evalStatus cfgEx prOnline 0) :=
  last_status_replaced_when_no_exception cfgEx okEnv ⟨none, 0⟩ prOnline 0 (by decide)

/-- Claim C5, counterexample: a failure of the channel send is not caught
anywhere — `report_status` raises and the exception escapes the cycle,
refuting "logged and never propagates out of the notify step". -/
theorem channel_send_exception_propagates :
    report_status badSendEnv cfgEx =
      Except.error (Exc.other "500 Internal Server Error") ∧
    (check_website cfgEx badSendEnv ⟨none, 0⟩ prOnline 0).raised =
      some (Exc.other "500 Internal Server Error") := by
  exact ⟨rfl, rfl⟩

/-- Claim C5, amended: `report_status` raises exactly when the user fetch
raises, or when the channel resolved, the fetched user is truthy and the
channel send raises; every other delivery failure — unresolvable channel,
falsy user, any DM-send exception — is swallowed with a log. -/
theorem report_status_error_characterization (env : NotifyEnv) (cfg : Config) :
    (∃ e, report_status env cfg = .error e) ↔
      ((∃ e, env.fetch_user = .error e) ∨
       ((∃ u, env.fetch_user = .ok (some u)) ∧ env.get_channel.isSome = true ∧
        ∃ e, env.channel_send = .error e)) := by
  obtain ⟨gc, fu, cs, us⟩ := env
  cases fu with
  | error e => simp [report_status]
  | ok user =>
    cases gc <;> cases user <;> cases cs <;> cases us <;> simp [report_status]

/-- Claim C6, counterexample: the user fetch (line 117) precedes the
channel send (line 142): when the fetched user is falsy, `report_status`
returns after the "Cannot find user" log and the channel send is never
issued, refuting "the channel send happens first, before any interaction
with the direct-message recipient". -/
theorem user_resolution_precedes_channel_send :
    report_status userNoneEnv cfgEx =
      Except.ok [Action.log "Cannot find user with ID 456"] ∧
    Action.channelSend ∉ [Action.log "Cannot find user with ID 456"] := by
  exact ⟨rfl, by decide⟩

/-- Claim C6, amended: a DM-delivery failure (which occurs after the
channel send) is caught and logged: the cycle raises nothing, the channel
send stands among the performed actions, and `last_status` and
`consecutive_failures` are exactly what a fully successful notification
cycle would leave.  (An unresolvable DM recipient, by contrast, aborts
before the channel send is issued, since the user fetch happens first.) -/
theorem dm_failure_contained (cfg : Config) (env : NotifyEnv) (st : MonitorState)
    (pr : ProbeResult) (now : Nat) (name : String) (e : Exc)
    (hch : env.get_channel = some ()) (hfu : env.fetch_user = .ok (some name))
    (hcs : env.channel_send = .ok ()) (hus : env.user_send = .error e) :
    (check_website cfg env st pr now).raised = none ∧
    (check_website cfg env st pr now).state =
      ⟨some (evalStatus cfg pr now), newFailures st.consecutive_failures pr⟩ ∧
    ((check_website cfg env st pr now).fired = true →
      (check_website cfg env st pr now).actions =
        [Action.channelSend, Action.log (dmErrorLog name e)]) := by
  have hrep : report_status env cfg =
      .ok [Action.channelSend, Action.log (dmErrorLog name e)] := by
    simp [report_status, hch, hfu, hcs, hus]
  simp only [check_website, hrep]
  split <;> simp

/-- Witness for claim C6 at a concrete input: a first cycle whose DM send
raises `Forbidden` still performs the channel send, logs, and updates the
state as usual. -/
theorem dm_failure_contained_witness :
    (check_website cfgEx dmFailEnv ⟨none, 0⟩ prOnline 0).raised = none ∧
    (check_website cfgEx dmFailEnv ⟨none, 0⟩ prOnline 0).state =
      ⟨some (evalStatus cfgEx prOnline 0), newFailures 0 prOnline⟩ ∧
    ((check_website cfgEx dmFailEnv ⟨none, 0⟩ prOnline 0).fired = true →
      (check_website cfgEx dmFailEnv ⟨none, 0⟩ prOnline 0).actions =
        [Action.channelSend, Action.log (dmErrorLog "monitored-user" Exc.forbidden)]) :=
  dm_failure_contained cfgEx dmFailEnv ⟨none, 0⟩ prOnline 0 "monitored-user"
    Exc.forbidden rfl rfl rfl rfl

/-- Claim C7: a probe's record is online exactly when the response has
HTTP status 200 and a content type starting with `image/`; a 200 response
with content type `text/html` is classified offline with a message naming
the returned status code and content type. -/
theorem probe_online_classification (cfg : Config) (pr : ProbeResult) (now : Nat) :
    ((evalStatus cfg pr now).online = true ↔
      ∃ ct ms, pr = ProbeResult.response 200 ct ms ∧ startsWithStr ct "image/" = true) ∧
    (∀ ms, (evalStatus cfg (ProbeResult.response 200 "text/html" ms) now).online = false ∧
      (evalStatus cfg (ProbeResult.response 200 "text/html" ms) now).message =
        cfg.website_name ++ " returned status 200 but invalid content type: text/html") := by
  constructor
  · cases pr with
    | response s ct ms =>
      simp only [evalStatus_online]
      constructor
      · intro h
        rw [Bool.and_eq_true] at h
        have hs : s = 200 := by simpa using h.1
        exact ⟨ct, ms, by rw [hs], h.2⟩
      · rintro ⟨ct2, ms2, heq, hsw⟩
        injection heq with h1 h2 h3
        subst h1
        subst h2
        simp [hsw]
    | failure e ms =>
      simp only [evalStatus_online, Bool.false_eq_true, false_iff]
      rintro ⟨ct2, ms2, heq, hsw⟩
      cases heq
  · intro ms
    refine ⟨rfl, ?_⟩
    show cfg.website_name ++ " returned status " ++ toString (200 : Nat) ++
        " but invalid content type: " ++ "text/html" = _
    simp only [String.append_assoc]
    rfl

/-- Claim C8, counterexample: environment variables for check interval,
debug flag or display name have no effect — `CONFIG` built under an
environment setting them equals `CONFIG` built without them, with the
hardcoded interval 3600 and debug `True`, refuting "check interval,
failure threshold, display name, home URL and debug-logging flag are all
environment-sourced". -/
theorem config_ignores_extra_env_vars :
    buildConfig envExtra = buildConfig envEx ∧
    (buildConfig envExtra).map Config.check_interval = some 3600 ∧
    envExtra "CHECK_INTERVAL" = some "5" ∧
    (buildConfig envExtra).map Config.debug = some true ∧
    envExtra "DEBUG" = some "false" := by
  decide

/-- Claim C8, amended: of the configuration surface, only the channel
identifier and the user identifier (within `CONFIG`) and the bot token
(read at `bot.run`) are environment-sourced; the target URL, check
interval (3600), failure threshold (3), display name, home URL and debug
flag (`True`) are hardcoded constants, identical under every environment. -/
theorem config_fields_characterization (env : Env) (cfg : Config) :
    buildConfig env = some cfg →
    cfg.check_url = "https://resilientinterface.com/resources/images/info-hub.png" ∧
    cfg.check_interval = 3600 ∧
    cfg.website_name = "ResilientInterface" ∧
    cfg.website_home_url = "https://resilientinterface.com" ∧
    cfg.debug = true ∧
    MAX_CONSECUTIVE_FAILURES = 3 ∧
    pyInt (getenvD env "STATUS_CHANNEL_ID" "YOUR_PRIVATE_CHANNEL_ID") =
      some cfg.status_channel_id ∧
    pyInt (getenvD env "USER_ID" "YOUR_DISCORD_USER_ID") = some cfg.user_id ∧
    botToken env = env "DISCORD_BOT_TOKEN" := by
  intro h
  cases h1 : pyInt (getenvD env "STATUS_CHANNEL_ID" "YOUR_PRIVATE_CHANNEL_ID") with
  | none => rw [buildConfig, h1] at h; cases h
  | some cid =>
    cases h2 : pyInt (getenvD env "USER_ID" "YOUR_DISCORD_USER_ID") with
    | none => rw [buildConfig, h1, h2] at h; cases h
    | some uid =>
      rw [buildConfig, h1, h2] at h
      injection h with h
      subst h
      exact ⟨rfl, rfl, rfl, rfl, rfl, rfl, rfl, rfl, rfl⟩

/-- Witness for claim C8 at a concrete environment: the configuration
built under `envEx` has the hardcoded interval and debug flag, and its
identifiers come from the environment values. -/
theorem config_fields_characterization_witness :
    cfgEx.check_interval = 3600 ∧ cfgEx.website_name = "ResilientInterface" ∧
    cfgEx.debug = true ∧ cfgEx.status_channel_id = 123 := by
  have h := config_fields_characterization envEx cfgEx (by decide)
  exact ⟨h.2.1, h.2.2.1, h.2.2.2.2.1, rfl⟩

/-- Claim C9: for every environment where `STATUS_CHANNEL_ID` or `USER_ID`
is absent, `int()` is applied to the non-numeric placeholder default and
`CONFIG` construction itself is the error point. -/
theorem missing_id_env_fails_at_config (env : Env)
    (h : env "STATUS_CHANNEL_ID" = none ∨ env "USER_ID" = none) :
    buildConfig env = none := by
  have hp1 : pyInt "YOUR_PRIVATE_CHANNEL_ID" = none := by decide
  have hp2 : pyInt "YOUR_DISCORD_USER_ID" = none := by decide
  rcases h with h | h
  · simp only [buildConfig, getenvD, h, Option.getD_none, hp1]
  · simp only [buildConfig, getenvD, h, Option.getD_none, hp2]
    split <;> rfl

/-- Witness for claim C9 at a concrete input: the empty environment fails
to build `CONFIG`. -/
theorem missing_id_env_fails_at_config_witness :
    buildConfig (fun _ => none) = none :=
  missing_id_env_fails_at_config (fun _ => none) (Or.inl rfl)

/-- Claim C10: once execution reaches the DM send, every exception the
send raises — `Forbidden` or any other — is caught and turned into a log
line; `report_status` returns normally in all such cases. -/
theorem dm_send_swallows_every_exception (env : NotifyEnv) (cfg : Config)
    (name : String) (e : Exc)
    (hch : env.get_channel = some ()) (hfu : env.fetch_user = .ok (some name))
    (hcs : env.channel_send = .ok ()) (hus : env.user_send = .error e) :
    report_status env cfg =
      .ok [Action.channelSend, Action.log (dmErrorLog name e)] := by
  simp [report_status, hch, hfu, hcs, hus]

/-- Witness for claim C10 at a concrete input: a non-`Forbidden` exception
from the DM send is also swallowed and logged. -/
theorem dm_send_swallows_every_exception_witness :
    report_status { okEnv with user_send := Except.error (Exc.other "network reset") }
        cfgEx =
      Except.ok [Action.channelSend,
        Action.log (dmErrorLog "monitored-user" (Exc.other "network reset"))] :=
  dm_send_swallows_every_exception
    { okEnv with user_send := Except.error (Exc.other "network reset") } cfgEx
    "monitored-user" (Exc.other "network reset") rfl rfl rfl rfl

end RiIsUpBot
